import Mathlib

/-!
Verification of the epicenter-trilateration core of `src/main.py`.

The Python source is a Streamlit script.  Its numerical core is:

* line 19:      `k_factor = (vp * vs) / (vp - vs)`
* lines 54-55:  `dist = k_factor * st.session_state.stations[i]['ps']`
* lines 118-125: the `residuals(p, stations)` objective function of the
  least-squares solve, projecting `(lat, lon)` to the plane inline via
  `sx, sy = s['lon'] * 88.8, s['lat'] * 111.0`
* lines 128-129: the initial guess `avg_lon, avg_lat`
* line 132:     `least_squares(residuals, [avg_lon, avg_lat], args=(stations,))`
  (a black-box scipy routine, modelled by its structured outcome only)
* lines 134-161: the `result.success` branch, with the inverse projection
  `res_lon, res_lat = result.x[0] / 88.8, result.x[1] / 111.0` on line 135
* lines 37-41:  the click handler appending a station to the session list
* lines 48-56:  the per-station measurement loop setting `ps` and `dist`
* lines 58-60:  the reset button

Python floats are embedded as exact numbers: `ℚ` wherever only field
operations occur (so everything stays executable), `ℝ` where `math.sqrt`
appears.  Fallible Python code (float division, which raises
`ZeroDivisionError` on a zero denominator) is embedded as `Except`.
-/

namespace Prisectime

/-- Errors raised by the embedded Python arithmetic: float division by zero
raises `ZeroDivisionError` (the spec's taxonomy names this failure of the
propagation model `DegenerateModelError`). -/
inductive PyError where
  | zeroDivisionError
deriving DecidableEq, Repr

/-- Line 19: `k_factor = (vp * vs) / (vp - vs)`.  Python float division
raises `ZeroDivisionError` when the denominator is zero, so the embedded
computation is fallible. -/
def k_factor (vp vs : ℚ) : Except PyError ℚ :=
  if vp - vs = 0 then .error .zeroDivisionError
  else .ok ((vp * vs) / (vp - vs))

/-- Lines 54-55: `dist = k_factor * ps` — the range derived from one raw
measurement `ps` and the two propagation speeds. -/
def computeRange (ps vp vs : ℚ) : Except PyError ℚ :=
  (k_factor vp vs).map (fun k => k * ps)

/-- Line 122 (also lines 128-129): the forward projection used by the
source, `x = lon * 88.8`, `y = lat * 111.0`. -/
def toPlanar (lat lon : ℚ) : ℚ × ℚ :=
  (lon * 88.8, lat * 111.0)

/-- Line 135: the inverse projection `res_lon = x / 88.8`,
`res_lat = y / 111.0`, returned as `(lat, lon)` as the source displays it. -/
def toLatLon (x y : ℚ) : ℚ × ℚ :=
  (y / 111.0, x / 88.8)

/-- A station record as the solve block (lines 111 onward) reads it: by the
time line 118 runs, the loop of lines 48-56 has set `'dist'` on every
station dict, so the record carries `lat`, `lon` and `dist`. -/
structure Station where
  lat : ℚ
  lon : ℚ
  dist : ℚ
deriving DecidableEq, Repr

/-- Lines 118-125: the residual vector handed to `least_squares`.  For each
station, project to the plane, take the Euclidean distance to the candidate
point, and subtract the station's target range. -/
noncomputable def residuals (p : ℝ × ℝ) (stations : List Station) : List ℝ :=
  stations.map (fun s =>
    let sx : ℝ := (s.lon : ℝ) * 88.8
    let sy : ℝ := (s.lat : ℝ) * 111.0
    let current_dist := Real.sqrt ((p.1 - sx) ^ 2 + (p.2 - sy) ^ 2)
    current_dist - (s.dist : ℝ))

/-- The least-squares objective `E(x,y)` determined by the residual vector:
the sum of the squares of its entries.  (scipy minimizes half this sum,
which has the same minimizers.) -/
noncomputable def objective (p : ℝ × ℝ) (stations : List Station) : ℝ :=
  ((residuals p stations).map (fun r => r ^ 2)).sum

/-- Lines 128-129: the initial guess passed to `least_squares`,
`avg_lon = sum(lon)/3 * 88.8`, `avg_lat = sum(lat)/3 * 111.0`. -/
def initialGuess (stations : List Station) : ℚ × ℚ :=
  ((stations.map (fun s => s.lon)).sum / 3 * 88.8,
   (stations.map (fun s => s.lat)).sum / 3 * 111.0)

/-- The structured outcome of the black-box `scipy.optimize.least_squares`
call on line 132: the final iterate `x` and the `success` flag, the only
two fields the source reads. -/
structure OptimizeResult where
  x : ℝ × ℝ
  success : Bool

/-- Lines 134-161: the branch on `result.success`.  On success the final
iterate is projected back to `(lat, lon)` (line 135) and shown; otherwise
an error message is shown and no point is produced. -/
noncomputable def solveOutcome (result : OptimizeResult) : Option (ℝ × ℝ) :=
  if result.success then some (result.x.2 / 111.0, result.x.1 / 88.8) else none

/-- A station dict as the interactive session stores it.  The click handler
(line 40) creates `{'lat': ..., 'lon': ..., 'ps': 5.0}` with no `'dist'`
key; the measurement loop (lines 49-55) later sets `'ps'` and `'dist'`, so
`dist` is an `Option`. -/
structure SessionStation where
  lat : ℚ
  lon : ℚ
  ps : ℚ
  dist : Option ℚ
deriving DecidableEq, Repr

/-- The part of `st.session_state` the script mutates: the station list
(initialized to `[]` on lines 22-23). -/
structure SessionState where
  stations : List SessionStation
deriving DecidableEq, Repr

/-- One interaction step of the script, as re-run by Streamlit:
a map click (lines 37-41), one pass of the measurement loop with the
current `k_factor` and the widget values (lines 48-55), the reset button
(lines 58-60), or the solve block (lines 111-161) with the black-box
optimizer's outcome. -/
inductive Event where
  | click (lat lon : ℚ)
  | measure (k : ℚ) (newPs : ℕ → ℚ)
  | reset
  | solve (result : OptimizeResult)

/-- Lines 48-55: `for i, s in enumerate(stations): stations[i]['ps'] = ...;
stations[i]['dist'] = k_factor * stations[i]['ps']`. -/
def updateLoop (k : ℚ) (newPs : ℕ → ℚ) : ℕ → List SessionStation → List SessionStation
  | _, [] => []
  | i, s :: rest =>
      { s with ps := newPs i, dist := some (k * newPs i) } :: updateLoop k newPs (i + 1) rest

/-- The state transition of one interaction step.  The click handler
(lines 37-41) appends only when fewer than three stations exist and no
existing station has the clicked latitude (`not any(s['lat'] == new_lat)`);
reset clears the list; the solve block (lines 111-161) only reads
`st.session_state.stations` and assigns nothing to it. -/
def step (st : SessionState) : Event → SessionState
  | .click lat lon =>
      if st.stations.length < 3 then
        if ∃ s ∈ st.stations, s.lat = lat then st
        else ⟨st.stations ++ [⟨lat, lon, 5.0, none⟩]⟩
      else st
  | .measure k newPs => ⟨updateLoop k newPs 0 st.stations⟩
  | .reset => ⟨[]⟩
  | .solve _ => st

/-- A full session: the event list folded over the initial empty state of
lines 22-23. -/
def runScript (events : List Event) : SessionState :=
  events.foldl step ⟨[]⟩

/-- The solve block (lines 111-161) as state plus output: it runs only when
exactly three stations exist, reads the station list, and produces the
projected point of `solveOutcome`; the session state is returned as the
block leaves it. -/
noncomputable def solveStep (st : SessionState) (result : OptimizeResult) :
    SessionState × Option (ℝ × ℝ) :=
  if st.stations.length = 3 then (st, solveOutcome result) else (st, none)

/-! ### Claim theorems -/

/-- C1: for every candidate point `(x, y)` and every list of three stations
with planar positions `(sx_i, sy_i) = (lon_i * 88.8, lat_i * 111.0)` and
target ranges `d_i`, the residual vector consists of exactly the three
scalar terms `sqrt((x−sx_i)² + (y−sy_i)²) − d_i` in station order, and the
objective is the sum of their squares `E(x,y)`. -/
theorem residuals_vector_three (p : ℝ × ℝ) (s₁ s₂ s₃ : Station) :
    residuals p [s₁, s₂, s₃] =
      [Real.sqrt ((p.1 - (s₁.lon : ℝ) * 88.8) ^ 2 + (p.2 - (s₁.lat : ℝ) * 111.0) ^ 2)
         - (s₁.dist : ℝ),
       Real.sqrt ((p.1 - (s₂.lon : ℝ) * 88.8) ^ 2 + (p.2 - (s₂.lat : ℝ) * 111.0) ^ 2)
         - (s₂.dist : ℝ),
       Real.sqrt ((p.1 - (s₃.lon : ℝ) * 88.8) ^ 2 + (p.2 - (s₃.lat : ℝ) * 111.0) ^ 2)
         - (s₃.dist : ℝ)] ∧
    objective p [s₁, s₂, s₃] =
      (Real.sqrt ((p.1 - (s₁.lon : ℝ) * 88.8) ^ 2 + (p.2 - (s₁.lat : ℝ) * 111.0) ^ 2)
         - (s₁.dist : ℝ)) ^ 2 +
      (Real.sqrt ((p.1 - (s₂.lon : ℝ) * 88.8) ^ 2 + (p.2 - (s₂.lat : ℝ) * 111.0) ^ 2)
         - (s₂.dist : ℝ)) ^ 2 +
      (Real.sqrt ((p.1 - (s₃.lon : ℝ) * 88.8) ^ 2 + (p.2 - (s₃.lat : ℝ) * 111.0) ^ 2)
         - (s₃.dist : ℝ)) ^ 2 := by
  constructor
  · simp [residuals]
  · simp [objective, residuals]
    ring

/-- C2: for positive speeds with `vp > vs`, the computed range is
`ps * (vp * vs) / (vp − vs)`; the map from measurement to range is linear
and sends `0` to `0`. -/
theorem computeRange_linear_formula (vp vs : ℚ) (hvp : 0 < vp) (hvs : 0 < vs)
    (hlt : vs < vp) :
    (∀ ps, computeRange ps vp vs = .ok (ps * ((vp * vs) / (vp - vs)))) ∧
    computeRange 0 vp vs = .ok 0 ∧
    (∀ a b m₁ m₂ r₁ r₂, computeRange m₁ vp vs = .ok r₁ → computeRange m₂ vp vs = .ok r₂ →
      computeRange (a * m₁ + b * m₂) vp vs = .ok (a * r₁ + b * r₂)) := by
  have hne : vp - vs ≠ 0 := sub_ne_zero.mpr (ne_of_gt hlt)
  have hfor : ∀ ps, computeRange ps vp vs = .ok (ps * ((vp * vs) / (vp - vs))) := by
    intro ps
    simp [computeRange, k_factor, hne, Except.map]
    ring
  refine ⟨hfor, by simpa using hfor 0, ?_⟩
  intro a b m₁ m₂ r₁ r₂ h₁ h₂
  rw [hfor m₁] at h₁
  rw [hfor m₂] at h₂
  rw [hfor (a * m₁ + b * m₂), Except.ok.injEq] at *
  rw [← h₁, ← h₂]
  ring

/-- Witness for C2: the default speeds of the source (`vp = 6`, `vs = 3.5`)
satisfy the hypotheses, and the range of the default measurement `5.0`
evaluates to `42`. -/
theorem computeRange_linear_formula_witness :
    computeRange 5 6 3.5 = .ok (5 * ((6 * 3.5) / (6 - 3.5))) :=
  (computeRange_linear_formula 6 3.5 (by norm_num) (by norm_num) (by norm_num)).1 5

/-- C3: whenever the two speeds are equal, the range computation fails with
the distinguished division-by-zero error (the spec's
`DegenerateModelError`) instead of producing a value for the caller. -/
theorem computeRange_equal_speeds_fails (ps v : ℚ) :
    computeRange ps v v = .error .zeroDivisionError := by
  simp [computeRange, k_factor, Except.map]

/-- C4: projecting any `(lat, lon)` to the plane with the fixed per-axis
scales and applying the inverse map returns the original pair exactly. -/
theorem toLatLon_toPlanar_roundtrip (lat lon : ℚ) :
    toLatLon (toPlanar lat lon).1 (toPlanar lat lon).2 = (lat, lon) := by
  simp only [toPlanar, toLatLon, Prod.mk.injEq]
  constructor <;> · rw [mul_div_assoc]; norm_num

/-- C5: for three stations, the initial guess of lines 128-129 equals the
centroid of the three planar station positions. -/
theorem initialGuess_is_centroid (s₁ s₂ s₃ : Station) :
    initialGuess [s₁, s₂, s₃] =
      (((toPlanar s₁.lat s₁.lon).1 + (toPlanar s₂.lat s₂.lon).1 +
          (toPlanar s₃.lat s₃.lon).1) / 3,
       ((toPlanar s₁.lat s₁.lon).2 + (toPlanar s₂.lat s₂.lon).2 +
          (toPlanar s₃.lat s₃.lon).2) / 3) := by
  simp only [initialGuess, toPlanar, Prod.mk.injEq]
  constructor <;> · simp; ring

/-- C6: the solve block yields a point exactly when the optimizer reports
success; on success the point is the back-projected final iterate, and
non-convergence is surfaced as the structured absence of a point, never as
a thrown fault (the embedded branch is a total function). -/
theorem solveOutcome_reports_convergence (r : OptimizeResult) :
    ((∃ p, solveOutcome r = some p) ↔ r.success = true) ∧
    (r.success = true → solveOutcome r = some (r.x.2 / 111.0, r.x.1 / 88.8)) ∧
    (r.success = false → solveOutcome r = none) := by
  rcases r with ⟨x, s⟩
  cases s <;> simp [solveOutcome]

/-- Witness for C6: a successful outcome at the origin yields its projected
point, and a failed outcome yields no point. -/
theorem solveOutcome_reports_convergence_witness :
    solveOutcome ⟨(0, 0), true⟩ = some ((0 : ℝ) / 111.0, (0 : ℝ) / 88.8) ∧
    solveOutcome ⟨(0, 0), false⟩ = none :=
  ⟨(solveOutcome_reports_convergence ⟨(0, 0), true⟩).2.1 rfl,
   (solveOutcome_reports_convergence ⟨(0, 0), false⟩).2.2 rfl⟩

/-- C8: a non-positive target range is accepted verbatim: the residual
list is still the uniform terms `sqrt((x−sx_i)² + (y−sy_i)²) − d_i`, and
the middle entry obeys the very same formula for every value of its range,
so no branch special-cases non-positive ranges. -/
theorem residuals_accept_nonpositive (p : ℝ × ℝ) (s₁ s₂ s₃ : Station)
    (h : s₂.dist ≤ 0) :
    residuals p [s₁, s₂, s₃] =
      [Real.sqrt ((p.1 - (s₁.lon : ℝ) * 88.8) ^ 2 + (p.2 - (s₁.lat : ℝ) * 111.0) ^ 2)
         - (s₁.dist : ℝ),
       Real.sqrt ((p.1 - (s₂.lon : ℝ) * 88.8) ^ 2 + (p.2 - (s₂.lat : ℝ) * 111.0) ^ 2)
         - (s₂.dist : ℝ),
       Real.sqrt ((p.1 - (s₃.lon : ℝ) * 88.8) ^ 2 + (p.2 - (s₃.lat : ℝ) * 111.0) ^ 2)
         - (s₃.dist : ℝ)] ∧
    (∀ d : ℚ, residuals p [s₁, { s₂ with dist := d }, s₃] =
      [Real.sqrt ((p.1 - (s₁.lon : ℝ) * 88.8) ^ 2 + (p.2 - (s₁.lat : ℝ) * 111.0) ^ 2)
         - (s₁.dist : ℝ),
       Real.sqrt ((p.1 - (s₂.lon : ℝ) * 88.8) ^ 2 + (p.2 - (s₂.lat : ℝ) * 111.0) ^ 2)
         - (d : ℝ),
       Real.sqrt ((p.1 - (s₃.lon : ℝ) * 88.8) ^ 2 + (p.2 - (s₃.lat : ℝ) * 111.0) ^ 2)
         - (s₃.dist : ℝ)]) := by
  constructor
  · simp [residuals]
  · intro d
    simp [residuals]

/-- Witness for C8: a station with range `−1` produces exactly the
unspecial residual terms. -/
theorem residuals_accept_nonpositive_witness :
    ((⟨0, 0, -1⟩ : Station).dist ≤ 0) ∧
    residuals (0, 0) [⟨1, 0, 1⟩, ⟨0, 0, -1⟩, ⟨0, 1, 1⟩] =
      [Real.sqrt ((0 - ((0 : ℚ) : ℝ) * 88.8) ^ 2 + (0 - ((1 : ℚ) : ℝ) * 111.0) ^ 2)
         - ((1 : ℚ) : ℝ),
       Real.sqrt ((0 - ((0 : ℚ) : ℝ) * 88.8) ^ 2 + (0 - ((0 : ℚ) : ℝ) * 111.0) ^ 2)
         - (((-1) : ℚ) : ℝ),
       Real.sqrt ((0 - ((1 : ℚ) : ℝ) * 88.8) ^ 2 + (0 - ((0 : ℚ) : ℝ) * 111.0) ^ 2)
         - ((1 : ℚ) : ℝ)] :=
  ⟨by norm_num,
   (residuals_accept_nonpositive (0, 0) ⟨1, 0, 1⟩ ⟨0, 0, -1⟩ ⟨0, 1, 1⟩ (by norm_num)).1⟩

/-- C9: the solve step leaves the session's station list untouched — every
station record is the same after the solve as before — both in the
state-plus-output form and as a bare state transition. -/
theorem solve_frame_preserves_stations (st : SessionState) (r : OptimizeResult) :
    (solveStep st r).1 = st ∧
    (solveStep st r).1.stations = st.stations ∧
    step st (.solve r) = st := by
  have h1 : (solveStep st r).1 = st := by
    unfold solveStep
    split <;> rfl
  exact ⟨h1, by rw [h1], rfl⟩

/-- The reachability invariant of the station collection: at most three
stations, pairwise distinct latitudes. -/
def Inv (st : SessionState) : Prop :=
  st.stations.length ≤ 3 ∧ st.stations.Pairwise (fun a b => a.lat ≠ b.lat)

/-- The measurement loop rewrites only `ps` and `dist`: positions are
unchanged. -/
theorem updateLoop_map_pos (k : ℚ) (f : ℕ → ℚ) (l : List SessionStation) :
    ∀ i : ℕ, (updateLoop k f i l).map (fun s => (s.lat, s.lon)) =
      l.map (fun s => (s.lat, s.lon)) := by
  induction l with
  | nil => intro i; rfl
  | cons s rest ih => intro i; simp only [updateLoop, List.map_cons, ih (i + 1)]

/-- Every interaction step preserves the station-collection invariant. -/
theorem step_preserves_Inv (st : SessionState) (e : Event) (h : Inv st) :
    Inv (step st e) := by
  rcases h with ⟨hlen, hpw⟩
  cases e with
  | click lat lon =>
      simp only [step]
      split_ifs with h1 h2
      · exact ⟨hlen, hpw⟩
      · refine ⟨?_, ?_⟩
        · simp only [List.length_append, List.length_singleton]
          omega
        · refine List.pairwise_append.mpr ⟨hpw, List.pairwise_singleton _ _, ?_⟩
          intro a ha b hb
          simp only [List.mem_singleton] at hb
          subst hb
          intro hEq
          exact h2 ⟨a, ha, hEq⟩
      · exact ⟨hlen, hpw⟩
  | measure k f =>
      have hmap := updateLoop_map_pos k f st.stations 0
      have hl : (updateLoop k f 0 st.stations).length = st.stations.length := by
        have := congrArg List.length hmap
        simpa using this
      refine ⟨?_, ?_⟩
      · show (updateLoop k f 0 st.stations).length ≤ 3
        rw [hl]
        exact hlen
      · show (updateLoop k f 0 st.stations).Pairwise (fun a b => a.lat ≠ b.lat)
        have hp : ((updateLoop k f 0 st.stations).map (fun s => (s.lat, s.lon))).Pairwise
            (fun u v => u.1 ≠ v.1) := by
          rw [hmap, List.pairwise_map]
          exact hpw
        rw [List.pairwise_map] at hp
        exact hp
  | reset => exact ⟨by simp [step], List.Pairwise.nil⟩
  | solve r => exact ⟨hlen, hpw⟩

/-- The invariant propagates along any event sequence. -/
theorem foldl_step_Inv (events : List Event) :
    ∀ st : SessionState, Inv st → Inv (events.foldl step st) := by
  induction events with
  | nil => intro st h; exact h
  | cons e rest ih => intro st h; exact ih _ (step_preserves_Inv st e h)

/-- C10: a click adds a station only while fewer than three exist and only
when no existing station has the clicked latitude; hence every reachable
session state holds at most three stations, no two of them share a
latitude, and no two coincide. -/
theorem stations_collection_invariant (events : List Event) :
    ((runScript events).stations.length ≤ 3 ∧
     (runScript events).stations.Pairwise (fun a b => a.lat ≠ b.lat) ∧
     (runScript events).stations.Pairwise (fun a b => a.lat ≠ b.lat ∨ a.lon ≠ b.lon)) ∧
    (∀ (st : SessionState) (lat lon : ℚ), ¬ st.stations.length < 3 →
      step st (.click lat lon) = st) ∧
    (∀ (st : SessionState) (lat lon : ℚ), (∃ s ∈ st.stations, s.lat = lat) →
      step st (.click lat lon) = st) := by
  refine ⟨?_, ?_, ?_⟩
  · have h : Inv (runScript events) :=
      foldl_step_Inv events ⟨[]⟩ ⟨by simp, List.Pairwise.nil⟩
    exact ⟨h.1, h.2, h.2.imp (fun hne => Or.inl hne)⟩
  · intro st lat lon hlen
    simp only [step, if_neg hlen]
  · intro st lat lon hex
    simp only [step]
    split_ifs <;> rfl

/-- Witness for C10: the empty session satisfies the bound, a full
three-station session ignores a further click, and a click at an existing
latitude is ignored. -/
theorem stations_collection_invariant_witness :
    (runScript []).stations.length ≤ 3 ∧
    step ⟨[⟨1, 1, 5, none⟩, ⟨2, 1, 5, none⟩, ⟨3, 1, 5, none⟩]⟩ (.click 4 4) =
      ⟨[⟨1, 1, 5, none⟩, ⟨2, 1, 5, none⟩, ⟨3, 1, 5, none⟩]⟩ ∧
    step ⟨[⟨1, 1, 5, none⟩]⟩ (.click 1 9) = ⟨[⟨1, 1, 5, none⟩]⟩ :=
  ⟨(stations_collection_invariant []).1.1,
   (stations_collection_invariant []).2.1
     ⟨[⟨1, 1, 5, none⟩, ⟨2, 1, 5, none⟩, ⟨3, 1, 5, none⟩]⟩ 4 4 (by decide),
   (stations_collection_invariant []).2.2
     ⟨[⟨1, 1, 5, none⟩]⟩ 1 9 ⟨⟨1, 1, 5, none⟩, by simp, rfl⟩⟩

end Prisectime
